import Mathlib

/-!
Shallow embedding of the TrueSight ml-service core
(src/ml-service/overlay_detection.py, overlay_calibration.py, main.py).

Conventions of the embedding:
* Python floats are modelled as rationals; float literals such as 0.3 are the
  exact rationals 3/10.  All scores that matter here are small sums of such
  constants, so no float-rounding behaviour is load-bearing for the claims.
* Pixel-level OpenCV primitives (contour extraction, masking, edge and line
  detection, histograms) are out of scope per the spec; a decoded frame is
  therefore represented by the outputs those black boxes produce for it
  (`FrameAnalysis` below), and the in-scope fusion/selection logic is
  translated statement by statement from the Python source.
* Stateful methods become explicit state passing; `time.time()` and
  `datetime.now().isoformat()` become explicit `now`/`ts` arguments.
* Python exceptions become `Except` values.
-/

namespace TrueSight

/-- Rectangle (x, y, w, h) in frame pixel coordinates, as produced by
cv2.boundingRect. -/
abbrev Region : Type := ℕ × ℕ × ℕ × ℕ

/-- One contour found by cv2.findContours on the edge image of a frame,
abstracted to the three attributes detect_screen_region reads:
cv2.contourArea, the vertex count of the cv2.approxPolyDP approximation,
and cv2.boundingRect. -/
structure Contour where
  area : ℚ
  approxVertices : ℕ
  bbox : Region
deriving Repr, DecidableEq

/-- Loop body of the contour scan in OverlayDetector.detect_screen_region
(overlay_detection.py lines 229-238).  The accumulator carries the selected
contour (screen_contour) and max_area, initially (None, 0).  A contour is
selected when area > max_area, area > 10 percent of the frame area, and its
polygonal approximation has at least 4 vertices; only then are
screen_contour and max_area updated. -/
def screenScanStep (frameArea : ℚ) (acc : Option Contour × ℚ) (c : Contour) :
    Option Contour × ℚ :=
  if acc.2 < c.area ∧ frameArea * (1/10) < c.area ∧ 4 ≤ c.approxVertices then
    (some c, c.area)
  else
    acc

/-- OverlayDetector.detect_screen_region (overlay_detection.py lines 215-247):
return the bounding box of the selected contour, or, when none was selected,
the central region with margins int(w * 0.1) and int(h * 0.1) on each side.
With 0.1 the exact rational 1/10, int(w * 0.1) is the floor w / 10. -/
def detect_screen_region (frameH frameW : ℕ) (contours : List Contour) : Region :=
  match (contours.foldl (screenScanStep ((frameH : ℚ) * (frameW : ℚ))) (none, 0)).1 with
  | some c => c.bbox
  | none =>
      (frameW / 10, frameH / 10, frameW - 2 * (frameW / 10), frameH - 2 * (frameH / 10))

/-- A contour the detect_screen_region scan is able to select: area
strictly above 10 percent of the frame area and a roughly rectangular
polygonal approximation (at least 4 vertices). -/
abbrev qualifyingContour (frameH frameW : ℕ) (c : Contour) : Prop :=
  ((frameH : ℚ) * (frameW : ℚ)) * (1/10) < c.area ∧ 4 ≤ c.approxVertices

/-- Everything the black-box image primitives produce from one decoded,
preprocessed frame, i.e. the inputs of the in-scope fusion logic:
frame dimensions, the contours fed to detect_screen_region, the retained
regions of the four colour bands of detect_overlays_by_color (in the fixed
declared band order), the retained text regions of detect_text_overlays,
the horizontal/vertical line counts of detect_ui_inconsistencies, and the
popup-window count and multi-peak channel count of
analyze_for_specific_video. -/
structure FrameAnalysis where
  frameH : ℕ
  frameW : ℕ
  contours : List Contour
  colorRegions : List (List Region)
  textRegions : List Region
  hLines : ℕ
  vLines : ℕ
  popupWindows : ℕ
  multiPeakChannels : ℕ
deriving Repr, DecidableEq

/-- color_score (overlay_detection.py line 516): total retained region count
across all colour bands, divided by 10.  Note: not clipped to 1. -/
def color_score (fa : FrameAnalysis) : ℚ :=
  (((fa.colorRegions.map List.length).sum : ℕ) : ℚ) / 10

/-- suspicious_score of detect_text_overlays (overlay_detection.py line 319):
min(len(text_regions) / 10.0, 1.0). -/
def text_suspicious_score (fa : FrameAnalysis) : ℚ :=
  min ((fa.textRegions.length : ℚ) / 10) 1

/-- rectangular_overlay_score of detect_ui_inconsistencies
(overlay_detection.py lines 336-353): 0.7 when both line counts exceed 4,
else 0. -/
def rectangular_overlay_score (fa : FrameAnalysis) : ℚ :=
  if 4 < fa.hLines ∧ 4 < fa.vLines then 7/10 else 0

/-- overlay_confidence of analyze_for_specific_video (overlay_detection.py
lines 404-411): min(total_score / 3.0, 1.0) where total_score =
popup_windows * 0.4 + suspicious_highlights + floating_text * 0.3,
suspicious_highlights accumulates 0.2 per multi-peak channel, and
floating_text is never incremented (constantly 0). -/
def overlay_confidence (fa : FrameAnalysis) : ℚ :=
  min (((fa.popupWindows : ℚ) * (2/5) + (fa.multiPeakChannels : ℚ) * (1/5)
        + 0 * (3/10)) / 3) 1

/-- final_confidence of detect_overlay (overlay_detection.py lines 522-527):
min(color*0.3 + text*0.25 + ui*0.2 + video*0.25, 1.0). -/
def final_confidence (fa : FrameAnalysis) : ℚ :=
  min (color_score fa * (3/10) + text_suspicious_score fa * (1/4)
       + rectangular_overlay_score fa * (1/5) + overlay_confidence fa * (1/4)) 1

/-- Demo-mode fields of OverlayDetector (overlay_detection.py lines 28-30). -/
structure DemoState where
  demo_sequence_active : Bool
  demo_alerts_sent : ℕ
  last_demo_time : ℚ
deriving Repr, DecidableEq

/-- The OverlayDetector fields read by detect_overlay:
detection_threshold and use_calibration from the constructor,
calibrated_threshold as loaded (or not) from the calibration file,
and the demo-mode state. -/
structure DetectorState where
  detection_threshold : ℚ
  use_calibration : Bool
  calibrated_threshold : Option ℚ
  demo : DemoState
deriving Repr, DecidableEq

/-- OverlayDetector.get_effective_threshold (overlay_detection.py lines
75-79): the calibrated threshold if use_calibration and one is loaded,
otherwise detection_threshold. -/
def get_effective_threshold (s : DetectorState) : ℚ :=
  if s.use_calibration then
    match s.calibrated_threshold with
    | some t => t
    | none => s.detection_threshold
  else
    s.detection_threshold

/-- OverlayDetector._check_demo_sequence (overlay_detection.py lines
123-148), with time.time() passed in as now.  Returns ((alert?, type),
updated demo state). -/
def check_demo_sequence (d : DemoState) (now : ℚ) :
    (Bool × Option String) × DemoState :=
  if d.demo_sequence_active then
    if 2 ≤ now - d.last_demo_time ∧ d.demo_alerts_sent < 4 then
      let sent := d.demo_alerts_sent + 1
      ((true, some "overlay_detected"),
       { demo_sequence_active := if 4 ≤ sent then false else d.demo_sequence_active,
         demo_alerts_sent := sent,
         last_demo_time := now })
    else
      ((false, none), d)
  else
    ((false, none), d)

/-- Input of OverlayDetector.detect_overlay: one of the two sentinel strings,
or an actual base64 frame, abstracted to what the decode/preprocess/extract
phase yields for it: either its FrameAnalysis, or the message of the Python
exception that phase raises (undecodable data, degenerate geometry, ...). -/
inductive FrameInput where
  | demoTabSwitchTrigger
  | demoCheckSequence
  | frame (analysis : Except String FrameAnalysis)
deriving Repr

/-- The analysis_details dict of the five return sites of detect_overlay.
In the analysisReport case every entry of the Python dict (screen_region,
color_analysis, text_analysis, ui_analysis, video_specific,
frame_dimensions) is a deterministic function of the stored screen region
and FrameAnalysis, so equality of this constructor is equality of the dict. -/
inductive AnalysisDetails where
  | demoTabSwitch
  | demoAlertSeq (n : ℕ)
  | demoSequenceComplete
  | errorMarker (msg : String)
  | analysisReport (screen_region : Region) (fa : FrameAnalysis)
deriving Repr, DecidableEq

/-- DetectionResult dataclass (overlay_detection.py lines 12-19). -/
structure DetectionResult where
  has_overlay : Bool
  confidence : ℚ
  overlay_type : Option String
  suspicious_regions : List Region
  analysis_details : AnalysisDetails
  timestamp : String
deriving Repr, DecidableEq

/-- OverlayDetector.detect_overlay (overlay_detection.py lines 415-569),
with time.time() passed as now and datetime.now().isoformat() as ts.
The whole Python body runs in a try/except that converts any exception into
the (False, 0.0, None, [], error-marker) result, so the embedding is a total
function; the frame input carries the exception of the decode/extract phase
when one occurs. -/
def detect_overlay (s : DetectorState) (now : ℚ) (ts : String)
    (input : FrameInput) : DetectionResult × DetectorState :=
  match input with
  | .demoTabSwitchTrigger =>
      (⟨true, 9/10, some "tab_switch_detected", [], .demoTabSwitch, ts⟩,
       { s with demo := ⟨true, 0, now⟩ })
  | .demoCheckSequence =>
      if s.demo.demo_sequence_active ∧ s.demo.demo_alerts_sent < 4 then
        let sent := s.demo.demo_alerts_sent + 1
        (⟨true, 19/20, some "overlay_detected", [(100, 100, 200, 150)],
          .demoAlertSeq sent, ts⟩,
         { s with demo := { s.demo with demo_alerts_sent := sent } })
      else
        (⟨false, 0, none, [], .demoSequenceComplete, ts⟩, s)
  | .frame analysisResult =>
      let c := check_demo_sequence s.demo now
      if c.1.1 then
        (⟨true, 19/20, c.1.2, [(100, 100, 200, 150)],
          .demoAlertSeq c.2.demo_alerts_sent, ts⟩,
         { s with demo := c.2 })
      else
        match analysisResult with
        | .error e =>
            (⟨false, 0, none, [], .errorMarker e, ts⟩, { s with demo := c.2 })
        | .ok fa =>
            let screen_region := detect_screen_region fa.frameH fa.frameW fa.contours
            let conf := final_confidence fa
            let thr := get_effective_threshold s
            let oty : Option String :=
              if thr < conf then
                some (if (1 : ℚ)/2 < overlay_confidence fa then "cheat_tool_overlay"
                      else if (3 : ℚ)/5 < text_suspicious_score fa then "text_solution_overlay"
                      else if (1 : ℚ)/2 < rectangular_overlay_score fa then "popup_overlay"
                      else "suspicious_overlay")
              else none
            (⟨decide (thr < conf), conf, oty,
              fa.colorRegions.flatten ++ fa.textRegions,
              .analysisReport screen_region fa, ts⟩,
             { s with demo := c.2 })

/-- Result of detect_overlay on a successfully analysed real frame. -/
def detectFrame (s : DetectorState) (now : ℚ) (ts : String)
    (fa : FrameAnalysis) : DetectionResult :=
  (detect_overlay s now ts (.frame (.ok fa))).1

/-- All fields of a DetectionResult except the timestamp. -/
def resultCore (r : DetectionResult) :
    Bool × ℚ × Option String × List Region × AnalysisDetails :=
  (r.has_overlay, r.confidence, r.overlay_type, r.suspicious_regions,
   r.analysis_details)

/-- The detector as main.py constructs it at startup
(OverlayDetector(detection_threshold=0.6)) when no calibration file exists:
default threshold 0.6, use_calibration True, no calibrated threshold,
demo sequence inactive. -/
def defaultDetector : DetectorState :=
  ⟨3/5, true, none, ⟨false, 0, 0⟩⟩

/-- A frame on which every extractor comes back empty. -/
def blankFrame : FrameAnalysis :=
  ⟨100, 100, [], [[], [], [], []], [], 0, 0, 0, 0⟩

/-- A frame whose first colour band retains 15 regions and whose other
extractors come back empty: total colour region count 15, so the unclipped
colour sub-score is 1.5. -/
def fifteenRegionFrame : FrameAnalysis :=
  ⟨100, 100, [], [List.replicate 15 (0, 0, 0, 0), [], [], []], [], 0, 0, 0, 0⟩

/-- The detector after loading a calibration profile with threshold 0.3
(use_calibration True, demo sequence inactive). -/
def calibDetector : DetectorState :=
  ⟨3/5, true, some (3/10), ⟨false, 0, 0⟩⟩

/-- A frame with scenario sub-score 0.6 (four popup windows and one
multi-peak channel) and text sub-score 0.9 (nine text regions); the colour
and structural extractors come back empty. -/
def videoTextFrame : FrameAnalysis :=
  ⟨100, 100, [], [[], [], [], []], List.replicate 9 (0, 0, 0, 0), 0, 0, 4, 1⟩

/-- Spec wording of the colour sub-score ("total retained region count
across all color bands divided by 10 and clipped to 1"), for comparison
with color_score of the source. -/
def color_score_claim (fa : FrameAnalysis) : ℚ :=
  min ((((fa.colorRegions.map List.length).sum : ℕ) : ℚ) / 10) 1

/-- Spec wording of the fused confidence
("clip(0.30 color + 0.25 text + 0.20 structural + 0.25 scenario, 0, 1)"
with the clipped colour sub-score), for comparison with the
final_confidence. -/
def final_confidence_claim (fa : FrameAnalysis) : ℚ :=
  max 0 (min ((3/10) * color_score_claim fa + (1/4) * text_suspicious_score fa
              + (1/5) * rectangular_overlay_score fa
              + (1/4) * overlay_confidence fa) 1)

/-! ## Calibration (overlay_calibration.py) -/

/-- The Python exception class raised when a format spec such as .3f is
applied to an object that does not support it (object.__format__). -/
inductive PyError where
  | typeError
deriving Repr, DecidableEq

/-- Python max of a non-empty list (0 as an unused placeholder on []). -/
def listMax : List ℚ → ℚ
  | [] => 0
  | x :: xs => xs.foldl max x

/-- Python min of a non-empty list (0 as an unused placeholder on []). -/
def listMin : List ℚ → ℚ
  | [] => 0
  | x :: xs => xs.foldl min x

/-- Argument of an f-string replacement field with format spec .3f. -/
inductive FmtArg where
  | float (q : ℚ)
  | floatList (l : List ℚ)

/-- Models format(v, .3f) inside an f-string: defined for a float;
a list does not override object.__format__, which raises TypeError for a
non-empty format spec. -/
def formatFloat3 : FmtArg → Except PyError Unit
  | .float _ => .ok ()
  | .floatList _ => .error .typeError

/-- OverlayCalibrator.analyze_samples (overlay_calibration.py lines 63-107),
abstracted over the recorded confidence lists of the two sample sets.
If either set is empty it returns None (line 65-67).  It then prints the
normal-sample statistics (lines 76-79, all float format specs), the
cheat-sample range (line 86, float format specs), and at line 87 the
cheat-sample average as f-format of cheat_confidences itself with .3f
(the np.mean call is missing in the source), formatting the list;
only after those prints does it compare max(normal) with min(cheat) and
return the midpoint threshold (lines 91-107). -/
def analyze_samples (normal_confidences cheat_confidences : List ℚ) :
    Except PyError (Option ℚ) := do
  if normal_confidences.isEmpty || cheat_confidences.isEmpty then
    return none
  let _ ← formatFloat3 (.float (listMin normal_confidences))
  let _ ← formatFloat3 (.float (listMax normal_confidences))
  let _ ← formatFloat3 (.float (listMin cheat_confidences))
  let _ ← formatFloat3 (.float (listMax cheat_confidences))
  let _ ← formatFloat3 (.floatList cheat_confidences)
  let max_normal := listMax normal_confidences
  let min_cheat := listMin cheat_confidences
  if max_normal < min_cheat then
    return some ((max_normal + min_cheat) / 2)
  else
    return none

/-- Observable outcome of calibrate_from_files: the threshold it returns
and whether save_calibration wrote the profile file. -/
structure CalibOutcome where
  returned_threshold : Option ℚ
  profile_written : Bool
deriving Repr, DecidableEq

/-- calibrate_from_files (overlay_calibration.py lines 185-213), abstracted
over the confidence lists its sample-loading loops produce.  It calls
analyze_samples outside any try/except, so an exception there propagates
and save_calibration is never reached; on a returned threshold it saves
the profile only when the float is truthy (nonzero). -/
def calibrate_from_files (normal cheat : List ℚ) : Except PyError CalibOutcome := do
  let threshold ← analyze_samples normal cheat
  match threshold with
  | some t =>
      if t ≠ 0 then
        return ⟨some t, true⟩
      else
        return ⟨none, false⟩
  | none => return ⟨none, false⟩

/-- The threshold the caller of calibrate_from_files receives: none when the
call raised. -/
def thresholdReturned : Except PyError CalibOutcome → Option ℚ
  | .ok o => o.returned_threshold
  | .error _ => none

/-- Whether a calibration profile file was written during the call: false
when the call raised before reaching save_calibration. -/
def profileWritten : Except PyError CalibOutcome → Bool
  | .ok o => o.profile_written
  | .error _ => false

/-! ## Temporal debounce (main.py) -/

/-- main.py line 29. -/
def HUMAN_HISTORY_LENGTH : ℕ := 4

/-- main.py line 30. -/
def PHONE_HISTORY_LENGTH : ℕ := 2

/-- main.py line 31. -/
def HUMAN_MALPRACTICE_THRESHOLD : ℕ := 1

/-- main.py line 32. -/
def PHONE_MALPRACTICE_THRESHOLD : ℕ := 1

/-- Last L entries of a list (the Python slice l[-L:], and also the result
of the keep-only-recent truncation). -/
def lastN (L : ℕ) (l : List Bool) : List Bool :=
  l.drop (l.length - L)

/-- Append the new outcome and keep only the last L entries
(main.py lines 451-459). -/
def pushWindow (L : ℕ) (w : List Bool) (b : Bool) : List Bool :=
  let w2 := w ++ [b]
  if L < w2.length then w2.drop (w2.length - L) else w2

/-- Persistence test of main.py lines 462-471:
len(history) >= L and all(history[-L:]). -/
def condActive (L : ℕ) (w : List Bool) : Bool :=
  decide (L ≤ w.length) && (lastN L w).all id

/-- Per-condition slice of the per-room state: the rolling window and the
alert-sent flag. -/
structure CondState where
  window : List Bool
  alertSent : Bool
deriving Repr, DecidableEq

/-- State of a condition in a room never seen before. -/
def condInit : CondState := ⟨[], false⟩

/-- One update of one condition, exactly the human (resp. phone) block of
update_detection_history (main.py lines 451-491): push the outcome,
truncate, test persistence, alert when persistent and not already alerted,
record the alert, and reset the flag when not persistent. -/
def stepCond (L : ℕ) (s : CondState) (b : Bool) : CondState × Bool :=
  let w := pushWindow L s.window b
  let active := condActive L w
  let newAlert := active && !s.alertSent
  let sent1 := if newAlert then true else s.alertSent
  let sent2 := if !active then false else sent1
  (⟨w, sent2⟩, newAlert)

/-- Alerts produced by feeding a sequence of outcomes to one condition. -/
def runCond (L : ℕ) (s : CondState) : List Bool → List Bool
  | [] => []
  | b :: bs => (stepCond L s b).2 :: runCond L (stepCond L s b).1 bs

/-- Per-room entry of the frame_history dict (main.py lines 439-442). -/
structure RoomHistory where
  humans : List Bool
  phones : List Bool
deriving Repr, DecidableEq

/-- Per-room entry of the alert_sent dict (main.py lines 444-448). -/
structure RoomAlerts where
  human_alert_sent : Bool
  phone_alert_sent : Bool
deriving Repr, DecidableEq

/-- The two module-level dicts of main.py, as total maps whose default value
is the entry the lazy-initialisation branches would create. -/
structure ServiceState where
  frame_history : String → RoomHistory
  alert_sent : String → RoomAlerts

/-- Service state before any frame was seen. -/
def initialService : ServiceState :=
  ⟨fun _ => ⟨[], []⟩, fun _ => ⟨false, false⟩⟩

/-- update_detection_history (main.py lines 433-497): append
(count >= threshold) to each window, truncate to the window length,
detect persistence, and report an alert only for a newly persistent
condition; the human and phone blocks are the same logic with lengths 4
and 2, factored here into stepCond.  Returns the new state and
(new_human_malpractice, new_phone_malpractice). -/
def update_detection_history (st : ServiceState) (room : String)
    (human_count phone_count : ℕ) : ServiceState × Bool × Bool :=
  let hStep := stepCond HUMAN_HISTORY_LENGTH
    ⟨(st.frame_history room).humans, (st.alert_sent room).human_alert_sent⟩
    (decide (HUMAN_MALPRACTICE_THRESHOLD ≤ human_count))
  let pStep := stepCond PHONE_HISTORY_LENGTH
    ⟨(st.frame_history room).phones, (st.alert_sent room).phone_alert_sent⟩
    (decide (PHONE_MALPRACTICE_THRESHOLD ≤ phone_count))
  (⟨fun r => if r = room then ⟨hStep.1.window, pStep.1.window⟩ else st.frame_history r,
    fun r => if r = room then ⟨hStep.1.alertSent, pStep.1.alertSent⟩ else st.alert_sent r⟩,
   hStep.2, pStep.2)

/-- Feed a sequence of (human_count, phone_count) frame observations for one
room through update_detection_history, collecting the per-frame
(new human alert, new phone alert) pairs. -/
def runRoom (st : ServiceState) (room : String) : List (ℕ × ℕ) → List (Bool × Bool)
  | [] => []
  | c :: cs =>
      let u := update_detection_history st room c.1 c.2
      (u.2.1, u.2.2) :: runRoom u.1 room cs

/-- Human-condition alert outcomes of a fresh run for one room. -/
def humanAlerts (room : String) (counts : List (ℕ × ℕ)) : List Bool :=
  (runRoom initialService room counts).map Prod.fst

/-- Phone-condition alert outcomes of a fresh run for one room. -/
def phoneAlerts (room : String) (counts : List (ℕ × ℕ)) : List Bool :=
  (runRoom initialService room counts).map Prod.snd

/-- Spec-side notion: after i+1 outcomes of xs the condition just became
persistent, i.e. the last L outcomes are all true with at least L outcomes
seen, and that did not hold one frame earlier. -/
def risingEdge (L : ℕ) (xs : List Bool) (i : ℕ) : Bool :=
  condActive L (xs.take (i + 1)) && !condActive L (xs.take i)

/-! ## Theorems -/

/-- Helper: on the normal path (demo sequence inactive, frame analysed
successfully) detect_overlay assembles exactly this result. -/
theorem detectFrame_eq (s : DetectorState) (now : ℚ) (ts : String)
    (fa : FrameAnalysis) (hdemo : s.demo.demo_sequence_active = false) :
    detectFrame s now ts fa =
      ⟨decide (get_effective_threshold s < final_confidence fa),
       final_confidence fa,
       if get_effective_threshold s < final_confidence fa then
         some (if (1 : ℚ)/2 < overlay_confidence fa then "cheat_tool_overlay"
               else if (3 : ℚ)/5 < text_suspicious_score fa then "text_solution_overlay"
               else if (1 : ℚ)/2 < rectangular_overlay_score fa then "popup_overlay"
               else "suspicious_overlay")
       else none,
       fa.colorRegions.flatten ++ fa.textRegions,
       .analysisReport (detect_screen_region fa.frameH fa.frameW fa.contours) fa,
       ts⟩ := by
  simp [detectFrame, detect_overlay, check_demo_sequence, hdemo]

/-- Helper: with the demo sequence inactive, a caught internal failure
yields exactly the fallback result. -/
theorem detectError_eq (s : DetectorState) (now : ℚ) (ts : String) (e : String)
    (hdemo : s.demo.demo_sequence_active = false) :
    (detect_overlay s now ts (.frame (.error e))).1
      = ⟨false, 0, none, [], .errorMarker e, ts⟩ := by
  simp [detect_overlay, check_demo_sequence, hdemo]

/-- Helper: the has_overlay flag of the normal path is the decided
threshold comparison. -/
theorem detectFrame_has_overlay (s : DetectorState) (now : ℚ) (ts : String)
    (fa : FrameAnalysis) (hdemo : s.demo.demo_sequence_active = false) :
    (detectFrame s now ts fa).has_overlay
      = decide (get_effective_threshold s < final_confidence fa) := by
  rw [detectFrame_eq _ _ _ _ hdemo]

/-- Helper: the overlay category of the normal path. -/
theorem detectFrame_overlay_type (s : DetectorState) (now : ℚ) (ts : String)
    (fa : FrameAnalysis) (hdemo : s.demo.demo_sequence_active = false) :
    (detectFrame s now ts fa).overlay_type
      = if get_effective_threshold s < final_confidence fa then
          some (if (1 : ℚ)/2 < overlay_confidence fa then "cheat_tool_overlay"
                else if (3 : ℚ)/5 < text_suspicious_score fa then "text_solution_overlay"
                else if (1 : ℚ)/2 < rectangular_overlay_score fa then "popup_overlay"
                else "suspicious_overlay")
        else none := by
  rw [detectFrame_eq _ _ _ _ hdemo]

/-- C1: the claim says calibration on the linearly separable sample
confidences normal = [0.1, 0.2, 0.15], cheat = [0.8, 0.9, 0.85] succeeds
with the midpoint threshold 0.5 and persists a profile.  The code instead
raises TypeError at overlay_calibration.py line 87 (the f-string formats
the list cheat_confidences itself with .3f; the np.mean call is missing)
before the threshold comparison is reached, so calibrate_from_files raises
and nothing is written — even though the midpoint the surrounding code was
written to compute is indeed 0.5, as the second conjunct shows. -/
theorem C1_calibration_crashes_on_separable_samples :
    calibrate_from_files [1/10, 1/5, 3/20] [4/5, 9/10, 17/20]
      = .error .typeError
    ∧ (listMax [(1 : ℚ)/10, 1/5, 3/20] + listMin [(4 : ℚ)/5, 9/10, 17/20]) / 2
      = 1/2 :=
  ⟨rfl, by norm_num [listMax, listMin, max_def, min_def]⟩

/-- C2: whenever either sample set is empty or the populations are not
separable (max normal confidence at least min cheat confidence),
calibrate_from_files returns no threshold and writes no calibration
profile.  (With both sets non-empty the run in fact raises at line 87
before the comparison, which also reaches neither a threshold nor
save_calibration; with an empty set analyze_samples returns None early.) -/
theorem C2_failed_calibration_writes_no_profile
    (normal cheat : List ℚ)
    (h : normal = [] ∨ cheat = [] ∨ listMin cheat ≤ listMax normal) :
    thresholdReturned (calibrate_from_files normal cheat) = none
    ∧ profileWritten (calibrate_from_files normal cheat) = false := by
  rcases normal with _ | ⟨a, l⟩ <;> rcases cheat with _ | ⟨b, m⟩ <;>
    exact ⟨rfl, rfl⟩

/-- Witness for C2 at the overlap example of the spec: normal confidences
[0.1, 0.7], cheat confidences [0.6, 0.9] overlap (0.6 at most 0.7). -/
theorem C2_witness :
    (([(1 : ℚ)/10, 7/10] : List ℚ) = [] ∨ ([(3 : ℚ)/5, 9/10] : List ℚ) = []
      ∨ listMin [(3 : ℚ)/5, 9/10] ≤ listMax [(1 : ℚ)/10, 7/10])
    ∧ thresholdReturned (calibrate_from_files [1/10, 7/10] [3/5, 9/10]) = none
    ∧ profileWritten (calibrate_from_files [1/10, 7/10] [3/5, 9/10]) = false :=
  ⟨Or.inr (Or.inr (by norm_num [listMax, listMin, max_def, min_def])),
   C2_failed_calibration_writes_no_profile [1/10, 7/10] [3/5, 9/10]
     (Or.inr (Or.inr (by norm_num [listMax, listMin, max_def, min_def])))⟩

/-- C3 counterexample: on a frame whose colour bands retain 15 regions in
total and whose other extractors return zero, the fused
confidence is 0.45 (colour sub-score 1.5, NOT clipped to 1, times 0.30),
while the formula of the claim with the colour sub-score clipped to 1 gives
0.30. -/
theorem C3_counterexample :
    (detectFrame defaultDetector 0 "2024-01-01T00:00:00" fifteenRegionFrame).confidence
      = 9/20
    ∧ final_confidence_claim fifteenRegionFrame = 3/10
    ∧ ((9 : ℚ)/20) ≠ 3/10 := by
  have h1 : (detectFrame defaultDetector 0 "2024-01-01T00:00:00" fifteenRegionFrame).confidence
      = final_confidence fifteenRegionFrame := by
    simp [detectFrame, detect_overlay, check_demo_sequence, defaultDetector]
  refine ⟨?_, ?_, by norm_num⟩
  · rw [h1]
    norm_num [final_confidence, color_score, text_suspicious_score,
      rectangular_overlay_score, overlay_confidence, fifteenRegionFrame,
      min_def]
  · norm_num [final_confidence_claim, color_score_claim, text_suspicious_score,
      rectangular_overlay_score, overlay_confidence, fifteenRegionFrame,
      min_def, max_def]

/-- C3 amended: for every frame on the normal (non-demo, non-error) path the
fused confidence equals clip(0.30 color + 0.25 text + 0.20 structural
+ 0.25 scenario, 0, 1) where the colour sub-score is the total retained
region count across all colour bands divided by 10 WITHOUT clipping to 1
(the lower clip at 0 never binds because every sub-score is
non-negative). -/
theorem C3_fused_confidence_formula (s : DetectorState) (now : ℚ) (ts : String)
    (fa : FrameAnalysis) (hdemo : s.demo.demo_sequence_active = false) :
    (detectFrame s now ts fa).confidence
      = max 0 (min ((3/10) * color_score fa + (1/4) * text_suspicious_score fa
                    + (1/5) * rectangular_overlay_score fa
                    + (1/4) * overlay_confidence fa) 1) := by
  have hc : 0 ≤ color_score fa := by
    unfold color_score; positivity
  have ht : 0 ≤ text_suspicious_score fa := by
    unfold text_suspicious_score
    have h0 : (0 : ℚ) ≤ (fa.textRegions.length : ℚ) / 10 := by positivity
    exact le_min h0 zero_le_one
  have hu : 0 ≤ rectangular_overlay_score fa := by
    unfold rectangular_overlay_score
    split <;> norm_num
  have hv : 0 ≤ overlay_confidence fa := by
    unfold overlay_confidence
    have h0 : (0 : ℚ) ≤ ((fa.popupWindows : ℚ) * (2/5)
        + (fa.multiPeakChannels : ℚ) * (1/5) + 0 * (3/10)) / 3 := by positivity
    exact le_min h0 zero_le_one
  have hS : 0 ≤ (3/10) * color_score fa + (1/4) * text_suspicious_score fa
      + (1/5) * rectangular_overlay_score fa + (1/4) * overlay_confidence fa := by
    linarith
  have hmain : (detectFrame s now ts fa).confidence = final_confidence fa := by
    simp [detectFrame, detect_overlay, check_demo_sequence, hdemo]
  rw [hmain, max_eq_right (le_min hS zero_le_one)]
  unfold final_confidence
  congr 1
  ring

/-- Witness for C3 amended at the all-zero frame with the default state. -/
theorem C3_formula_witness :
    defaultDetector.demo.demo_sequence_active = false
    ∧ (detectFrame defaultDetector 0 "ts0" blankFrame).confidence
      = max 0 (min ((3/10) * color_score blankFrame
                    + (1/4) * text_suspicious_score blankFrame
                    + (1/5) * rectangular_overlay_score blankFrame
                    + (1/4) * overlay_confidence blankFrame) 1) :=
  ⟨rfl, C3_fused_confidence_formula defaultDetector 0 "ts0" blankFrame rfl⟩

/-- C9: a failure of the decode/preprocess/extract phase of detect_overlay
is caught by its try/except and converted to the well-formed non-overlay
result with confidence 0, has_overlay False, no overlay type, and the
error marker in analysis_details; no exception reaches the caller (the
embedded detect_overlay is a total function).  Scoped to runs in which the
demo sequence is inactive, since with it active the scripted demo alert is
returned before the failing phase would even run. -/
theorem C9_internal_failure_contained (s : DetectorState) (now : ℚ) (ts : String)
    (e : String) (hdemo : s.demo.demo_sequence_active = false) :
    (detect_overlay s now ts (.frame (.error e))).1.has_overlay = false
    ∧ (detect_overlay s now ts (.frame (.error e))).1.confidence = 0
    ∧ (detect_overlay s now ts (.frame (.error e))).1.overlay_type = none
    ∧ (detect_overlay s now ts (.frame (.error e))).1.analysis_details
      = .errorMarker e := by
  simp [detect_overlay, check_demo_sequence, hdemo]

/-- Witness for C9 at the default detector state and a concrete decode
error. -/
theorem C9_witness :
    defaultDetector.demo.demo_sequence_active = false
    ∧ ((detect_overlay defaultDetector 0 "ts1" (.frame (.error "bad image"))).1.has_overlay = false
    ∧ (detect_overlay defaultDetector 0 "ts1" (.frame (.error "bad image"))).1.confidence = 0
    ∧ (detect_overlay defaultDetector 0 "ts1" (.frame (.error "bad image"))).1.overlay_type = none
    ∧ (detect_overlay defaultDetector 0 "ts1" (.frame (.error "bad image"))).1.analysis_details
      = .errorMarker "bad image") :=
  ⟨rfl, C9_internal_failure_contained defaultDetector 0 "ts1" "bad image" rfl⟩

/-- C10: the exact sentinel input demo_tab_switch_trigger short-circuits
detect_overlay before any decoding or extraction: for every detector state
(hence every effective threshold and every demo/prior-frame history) the
result has has_overlay True, confidence 0.90 and overlay type
tab_switch_detected, with demo-mode analysis details instead of any
extractor report. -/
theorem C10_demo_tab_switch_trigger (s : DetectorState) (now : ℚ) (ts : String) :
    (detect_overlay s now ts .demoTabSwitchTrigger).1.has_overlay = true
    ∧ (detect_overlay s now ts .demoTabSwitchTrigger).1.confidence = 9/10
    ∧ (detect_overlay s now ts .demoTabSwitchTrigger).1.overlay_type
      = some "tab_switch_detected"
    ∧ (detect_overlay s now ts .demoTabSwitchTrigger).1.analysis_details
      = .demoTabSwitch :=
  ⟨rfl, rfl, rfl, rfl⟩

/-- C4 counterexample: with a loaded calibrated threshold of 0.95 (a value
in [0, 1]) the sentinel input demo_tab_switch_trigger produces a detection
result with has_overlay True although its confidence 0.90 does not exceed
the effective threshold — so the biconditional of the claim does not hold
for every detection result. -/
theorem C4_counterexample :
    (0 : ℚ) ≤ 19/20 ∧ ((19 : ℚ)/20) ≤ 1
    ∧ (detect_overlay ⟨3/5, true, some (19/20), ⟨false, 0, 0⟩⟩ 0 "ts2"
        .demoTabSwitchTrigger).1.has_overlay = true
    ∧ get_effective_threshold ⟨3/5, true, some (19/20), ⟨false, 0, 0⟩⟩ = 19/20
    ∧ ¬(get_effective_threshold ⟨3/5, true, some (19/20), ⟨false, 0, 0⟩⟩
        < (detect_overlay ⟨3/5, true, some (19/20), ⟨false, 0, 0⟩⟩ 0 "ts2"
            .demoTabSwitchTrigger).1.confidence) := by
  refine ⟨by norm_num, by norm_num, rfl, rfl, ?_⟩
  show ¬((19 : ℚ)/20 < 9/10)
  norm_num

/-- C4 amended: for every detection result of the non-demo paths (demo
sequence inactive; both a successfully analysed frame and a caught internal
failure) and every calibrated threshold in [0, 1], has_overlay is true iff
confidence strictly exceeds the effective threshold, which is the
calibrated threshold when a profile is loaded (use_calibration and a value
present) and the fixed constructor default 0.6 otherwise. -/
theorem C4_threshold_decision (calib : Option ℚ) (uc : Bool) (d : DemoState)
    (fa : FrameAnalysis) (e : String) (now : ℚ) (ts : String)
    (hdemo : d.demo_sequence_active = false)
    (hrange : ∀ t, calib = some t → 0 ≤ t ∧ t ≤ 1) :
    ((detectFrame ⟨3/5, uc, calib, d⟩ now ts fa).has_overlay = true
      ↔ get_effective_threshold ⟨3/5, uc, calib, d⟩
          < (detectFrame ⟨3/5, uc, calib, d⟩ now ts fa).confidence)
    ∧ ((detect_overlay ⟨3/5, uc, calib, d⟩ now ts (.frame (.error e))).1.has_overlay = true
      ↔ get_effective_threshold ⟨3/5, uc, calib, d⟩
          < (detect_overlay ⟨3/5, uc, calib, d⟩ now ts (.frame (.error e))).1.confidence)
    ∧ (uc = true → ∀ t, calib = some t →
        get_effective_threshold ⟨3/5, uc, calib, d⟩ = t)
    ∧ ((calib = none ∨ uc = false) →
        get_effective_threshold ⟨3/5, uc, calib, d⟩ = 3/5) := by
  have hthr0 : 0 ≤ get_effective_threshold ⟨3/5, uc, calib, d⟩ := by
    cases uc with
    | false => norm_num [get_effective_threshold]
    | true =>
      cases calib with
      | none => norm_num [get_effective_threshold]
      | some t => simpa [get_effective_threshold] using (hrange t rfl).1
  refine ⟨?_, ?_, ?_, ?_⟩
  · rw [detectFrame_eq _ _ _ _ hdemo]
    simp
  · simp [detectError_eq ⟨3/5, uc, calib, d⟩ now ts e hdemo, not_lt.mpr hthr0]
  · rintro rfl t rfl
    rfl
  · rintro (rfl | rfl)
    · cases uc <;> rfl
    · rfl

/-- Witness for C4 amended at the calibrated detector (threshold 0.3) on
the all-zero frame. -/
theorem C4_witness :
    ((⟨false, 0, 0⟩ : DemoState).demo_sequence_active = false)
    ∧ (∀ t, (some ((3 : ℚ)/10) : Option ℚ) = some t → 0 ≤ t ∧ t ≤ 1)
    ∧ (((detectFrame ⟨3/5, true, some (3/10), ⟨false, 0, 0⟩⟩ 0 "ts3" blankFrame).has_overlay = true
      ↔ get_effective_threshold ⟨3/5, true, some (3/10), ⟨false, 0, 0⟩⟩
          < (detectFrame ⟨3/5, true, some (3/10), ⟨false, 0, 0⟩⟩ 0 "ts3" blankFrame).confidence)
    ∧ ((detect_overlay ⟨3/5, true, some (3/10), ⟨false, 0, 0⟩⟩ 0 "ts3"
          (.frame (.error "oops"))).1.has_overlay = true
      ↔ get_effective_threshold ⟨3/5, true, some (3/10), ⟨false, 0, 0⟩⟩
          < (detect_overlay ⟨3/5, true, some (3/10), ⟨false, 0, 0⟩⟩ 0 "ts3"
              (.frame (.error "oops"))).1.confidence)
    ∧ (true = true → ∀ t, (some ((3 : ℚ)/10) : Option ℚ) = some t →
        get_effective_threshold ⟨3/5, true, some (3/10), ⟨false, 0, 0⟩⟩ = t)
    ∧ (((some ((3 : ℚ)/10) : Option ℚ) = none ∨ true = false) →
        get_effective_threshold ⟨3/5, true, some (3/10), ⟨false, 0, 0⟩⟩ = 3/5)) := by
  have hrange : ∀ t, (some ((3 : ℚ)/10) : Option ℚ) = some t → 0 ≤ t ∧ t ≤ 1 := by
    rintro t ht
    injection ht with ht
    subst ht
    norm_num
  exact ⟨rfl, hrange,
    C4_threshold_decision (some (3/10)) true ⟨false, 0, 0⟩ blankFrame "oops" 0 "ts3" rfl hrange⟩

/-- C5: on the normal path, the overlay category is unset when has_overlay
is false, and when has_overlay is true it is selected by the strict
priority chain scenario > 0.5, then text > 0.6, then structural > 0.5,
then the suspicious_overlay default — so a high text score can never
preempt a triggering scenario score. -/
theorem C5_category_priority (s : DetectorState) (now : ℚ) (ts : String)
    (fa : FrameAnalysis) (hdemo : s.demo.demo_sequence_active = false) :
    ((detectFrame s now ts fa).has_overlay = false →
      (detectFrame s now ts fa).overlay_type = none)
    ∧ ((detectFrame s now ts fa).has_overlay = true →
        (((1 : ℚ)/2 < overlay_confidence fa →
           (detectFrame s now ts fa).overlay_type = some "cheat_tool_overlay")
        ∧ (overlay_confidence fa ≤ 1/2 → (3 : ℚ)/5 < text_suspicious_score fa →
           (detectFrame s now ts fa).overlay_type = some "text_solution_overlay")
        ∧ (overlay_confidence fa ≤ 1/2 → text_suspicious_score fa ≤ 3/5 →
           (1 : ℚ)/2 < rectangular_overlay_score fa →
           (detectFrame s now ts fa).overlay_type = some "popup_overlay")
        ∧ (overlay_confidence fa ≤ 1/2 → text_suspicious_score fa ≤ 3/5 →
           rectangular_overlay_score fa ≤ 1/2 →
           (detectFrame s now ts fa).overlay_type = some "suspicious_overlay"))) := by
  have hty := detectFrame_overlay_type s now ts fa hdemo
  have hho := detectFrame_has_overlay s now ts fa hdemo
  constructor
  · intro h
    rw [hho] at h
    simp only [decide_eq_false_iff_not] at h
    rw [hty, if_neg h]
  · intro h
    rw [hho] at h
    simp only [decide_eq_true_eq] at h
    refine ⟨?_, ?_, ?_, ?_⟩
    · intro h1
      rw [hty, if_pos h, if_pos h1]
    · intro h1 h2
      rw [hty, if_pos h, if_neg (not_lt.mpr h1), if_pos h2]
    · intro h1 h2 h3
      rw [hty, if_pos h, if_neg (not_lt.mpr h1), if_neg (not_lt.mpr h2), if_pos h3]
    · intro h1 h2 h3
      rw [hty, if_pos h, if_neg (not_lt.mpr h1), if_neg (not_lt.mpr h2),
        if_neg (not_lt.mpr h3)]

/-- Witness for C5: a frame with scenario sub-score 0.6 and text sub-score
0.9 is categorised cheat_tool_overlay (never text_solution_overlay), with
the calibrated threshold 0.3 making has_overlay true. -/
theorem C5_witness :
    calibDetector.demo.demo_sequence_active = false
    ∧ (detectFrame calibDetector 0 "ts4" videoTextFrame).has_overlay = true
    ∧ (1 : ℚ)/2 < overlay_confidence videoTextFrame
    ∧ text_suspicious_score videoTextFrame = 9/10
    ∧ (detectFrame calibDetector 0 "ts4" videoTextFrame).overlay_type
      = some "cheat_tool_overlay" := by
  have hvid : (1 : ℚ)/2 < overlay_confidence videoTextFrame := by
    norm_num [overlay_confidence, videoTextFrame, min_def]
  have htext : text_suspicious_score videoTextFrame = 9/10 := by
    norm_num [text_suspicious_score, videoTextFrame, min_def]
  have hov : (detectFrame calibDetector 0 "ts4" videoTextFrame).has_overlay = true := by
    rw [detectFrame_eq calibDetector 0 "ts4" videoTextFrame rfl]
    norm_num [get_effective_threshold, calibDetector, final_confidence,
      color_score, text_suspicious_score, rectangular_overlay_score,
      overlay_confidence, videoTextFrame, min_def]
  exact ⟨rfl, hov, hvid, htext,
    ((C5_category_priority calibDetector 0 "ts4" videoTextFrame rfl).2 hov).1 hvid⟩

/-- C8 counterexample: running the pipeline twice on the identical frame
with no calibration change, at two (necessarily distinct) wall-clock
instants, yields results that are NOT bit-identical: the timestamp field
records datetime.now() of each call. -/
theorem C8_counterexample :
    (detect_overlay defaultDetector 0 "2024-01-01T00:00:00.000000"
        (.frame (.ok blankFrame))).1
      ≠ (detect_overlay
          ((detect_overlay defaultDetector 0 "2024-01-01T00:00:00.000000"
              (.frame (.ok blankFrame))).2)
          1 "2024-01-01T00:00:00.000001" (.frame (.ok blankFrame))).1 := by
  intro h
  have h2 := congrArg DetectionResult.timestamp h
  simp [detect_overlay, check_demo_sequence, defaultDetector] at h2

/-- C8 amended: re-running detection on the identical frame with no
calibration change (demo sequence inactive) leaves the detector state
unchanged and reproduces every field of the result except the timestamp,
which records the wall clock of each call. -/
theorem C8_idempotent_up_to_timestamp (s : DetectorState) (fa : FrameAnalysis)
    (now1 now2 : ℚ) (ts1 ts2 : String)
    (hdemo : s.demo.demo_sequence_active = false) :
    resultCore ((detect_overlay s now1 ts1 (.frame (.ok fa))).1)
      = resultCore ((detect_overlay
          ((detect_overlay s now1 ts1 (.frame (.ok fa))).2) now2 ts2
          (.frame (.ok fa))).1)
    ∧ (detect_overlay s now1 ts1 (.frame (.ok fa))).2 = s := by
  have hstate : (detect_overlay s now1 ts1 (.frame (.ok fa))).2 = s := by
    simp [detect_overlay, check_demo_sequence, hdemo]
  refine ⟨?_, hstate⟩
  rw [hstate]
  rw [show (detect_overlay s now1 ts1 (.frame (.ok fa))).1
        = detectFrame s now1 ts1 fa from rfl,
      show (detect_overlay s now2 ts2 (.frame (.ok fa))).1
        = detectFrame s now2 ts2 fa from rfl]
  rw [detectFrame_eq _ _ _ _ hdemo, detectFrame_eq _ _ _ _ hdemo]
  rfl

/-- Helper: the contour scan of detect_screen_region either leaves the
accumulator untouched (and then every qualifying contour has area at most
the running maximum), or selects a qualifying contour of maximal area. -/
theorem screenScan_spec (frameH frameW : ℕ) (cs : List Contour) :
    ∀ (sel : Option Contour) (m : ℚ),
      (List.foldl (screenScanStep ((frameH : ℚ) * (frameW : ℚ))) (sel, m) cs = (sel, m)
        ∧ ∀ c ∈ cs, qualifyingContour frameH frameW c → c.area ≤ m)
      ∨ (∃ c ∈ cs, qualifyingContour frameH frameW c
          ∧ List.foldl (screenScanStep ((frameH : ℚ) * (frameW : ℚ))) (sel, m) cs
              = (some c, c.area)
          ∧ m < c.area
          ∧ ∀ c2 ∈ cs, qualifyingContour frameH frameW c2 → c2.area ≤ c.area) := by
  induction cs with
  | nil =>
      intro sel m
      exact Or.inl ⟨rfl, by simp⟩
  | cons c cs ih =>
      intro sel m
      by_cases hfire : m < c.area ∧ qualifyingContour frameH frameW c
      · have hstep : screenScanStep ((frameH : ℚ) * (frameW : ℚ)) (sel, m) c
            = (some c, c.area) := by
          unfold screenScanStep
          exact if_pos ⟨hfire.1, hfire.2.1, hfire.2.2⟩
        rw [List.foldl_cons, hstep]
        rcases ih (some c) c.area with ⟨heq, hall⟩ | ⟨c2, hmem, hqual, heq, hlt, hall⟩
        · refine Or.inr ⟨c, List.mem_cons_self c cs, hfire.2, heq, hfire.1, ?_⟩
          intro c2 hc2 hq2
          rcases List.mem_cons.mp hc2 with rfl | hc2
          · exact le_refl _
          · exact hall c2 hc2 hq2
        · refine Or.inr ⟨c2, List.mem_cons_of_mem c hmem, hqual, heq,
            lt_trans hfire.1 hlt, ?_⟩
          intro c3 hc3 hq3
          rcases List.mem_cons.mp hc3 with rfl | hc3
          · exact le_of_lt hlt
          · exact hall c3 hc3 hq3
      · have hstep : screenScanStep ((frameH : ℚ) * (frameW : ℚ)) (sel, m) c
            = (sel, m) := by
          unfold screenScanStep
          refine if_neg ?_
          intro hcond
          exact hfire ⟨hcond.1, hcond.2.1, hcond.2.2⟩
        rw [List.foldl_cons, hstep]
        rcases ih sel m with ⟨heq, hall⟩ | ⟨c2, hmem, hqual, heq, hlt, hall⟩
        · refine Or.inl ⟨heq, ?_⟩
          intro c2 hc2 hq2
          rcases List.mem_cons.mp hc2 with rfl | hc2
          · exact le_of_not_lt fun hlt2 => hfire ⟨hlt2, hq2⟩
          · exact hall c2 hc2 hq2
        · refine Or.inr ⟨c2, List.mem_cons_of_mem c hmem, hqual, heq, hlt, ?_⟩
          intro c3 hc3 hq3
          rcases List.mem_cons.mp hc3 with rfl | hc3
          · exact le_trans (le_of_not_lt fun hlt2 => hfire ⟨hlt2, hq3⟩) (le_of_lt hlt)
          · exact hall c3 hc3 hq3

/-- C7 counterexample: (i) with no usable contour on a 100 by 100 frame the
fallback region is (10, 10, 80, 80), whose area 6400 is 64 percent of the
frame area, not the 80 percent by area the claim states; (ii) a 4-vertex
contour occupying exactly 10 percent of the frame area (area 1000) is
rejected by the strict comparison, so its bounding box is not returned
although the at-least-10-percent wording of the claim admits it. -/
theorem C7_counterexample :
    detect_screen_region 100 100 [] = (10, 10, 80, 80)
    ∧ 5 * (80 * 80) ≠ 4 * (100 * 100)
    ∧ (((100 : ℚ) * 100) * (1/10) ≤ (⟨1000, 4, (5, 5, 30, 30)⟩ : Contour).area)
    ∧ detect_screen_region 100 100 [⟨1000, 4, (5, 5, 30, 30)⟩] ≠ (5, 5, 30, 30) := by
  have hstep : screenScanStep (((100 : ℕ) : ℚ) * ((100 : ℕ) : ℚ)) (none, 0)
      ⟨1000, 4, (5, 5, 30, 30)⟩ = (none, 0) := by
    unfold screenScanStep
    refine if_neg ?_
    intro hcond
    have h2 := hcond.2.1
    norm_num at h2
  have heval : detect_screen_region 100 100 [⟨1000, 4, (5, 5, 30, 30)⟩]
      = (10, 10, 80, 80) := by
    unfold detect_screen_region
    rw [List.foldl_cons, hstep]
    rfl
  refine ⟨rfl, by norm_num, by norm_num, ?_⟩
  rw [heval]
  decide

/-- C7 amended: detect_screen_region returns the bounding box of a
maximal-area contour among those with at least 4 approximation vertices
and area strictly greater than 10 percent of the frame area; when no such
contour exists it falls back to the centred region with floor(dim/10)
margins on each side (about 80 percent of each dimension, hence about 64
percent of the frame by area). -/
theorem C7_screen_region (frameH frameW : ℕ) (contours : List Contour) :
    ((∀ c ∈ contours, ¬ qualifyingContour frameH frameW c) →
      detect_screen_region frameH frameW contours
        = (frameW / 10, frameH / 10, frameW - 2 * (frameW / 10),
           frameH - 2 * (frameH / 10)))
    ∧ ((∃ c ∈ contours, qualifyingContour frameH frameW c) →
        ∃ c ∈ contours, qualifyingContour frameH frameW c
          ∧ detect_screen_region frameH frameW contours = c.bbox
          ∧ ∀ c2 ∈ contours, qualifyingContour frameH frameW c2 →
              c2.area ≤ c.area) := by
  constructor
  · intro hnone
    rcases screenScan_spec frameH frameW contours none 0 with
      ⟨heq, _⟩ | ⟨c, hmem, hqual, _, _, _⟩
    · unfold detect_screen_region
      rw [heq]
    · exact absurd hqual (hnone c hmem)
  · rintro ⟨c0, hmem0, hqual0⟩
    rcases screenScan_spec frameH frameW contours none 0 with
      ⟨_, hall⟩ | ⟨c, hmem, hqual, heq, _, hall⟩
    · exfalso
      have h1 := hall c0 hmem0 hqual0
      have h2 : (0 : ℚ) ≤ ((frameH : ℚ) * (frameW : ℚ)) * (1/10) := by positivity
      have h3 := hqual0.1
      linarith
    · refine ⟨c, hmem, hqual, ?_, hall⟩
      unfold detect_screen_region
      rw [heq]

/-- Witness for C7 amended: a 4-vertex contour of area 2000 (20 percent of
a 100 by 100 frame) qualifies and its bounding box is returned. -/
theorem C7_witness :
    (∃ c ∈ [(⟨2000, 4, (5, 5, 30, 30)⟩ : Contour)], qualifyingContour 100 100 c)
    ∧ (∃ c ∈ [(⟨2000, 4, (5, 5, 30, 30)⟩ : Contour)], qualifyingContour 100 100 c
        ∧ detect_screen_region 100 100 [⟨2000, 4, (5, 5, 30, 30)⟩] = c.bbox
        ∧ ∀ c2 ∈ [(⟨2000, 4, (5, 5, 30, 30)⟩ : Contour)],
            qualifyingContour 100 100 c2 → c2.area ≤ c.area) := by
  have hex : ∃ c ∈ [(⟨2000, 4, (5, 5, 30, 30)⟩ : Contour)],
      qualifyingContour 100 100 c :=
    ⟨⟨2000, 4, (5, 5, 30, 30)⟩, by simp, by norm_num [qualifyingContour]⟩
  exact ⟨hex, (C7_screen_region 100 100 [⟨2000, 4, (5, 5, 30, 30)⟩]).2 hex⟩

/-- Witness for C8 amended at the default detector on the all-zero frame at
two distinct instants. -/
theorem C8_witness :
    defaultDetector.demo.demo_sequence_active = false
    ∧ (resultCore ((detect_overlay defaultDetector 0 "tsA"
          (.frame (.ok blankFrame))).1)
        = resultCore ((detect_overlay
            ((detect_overlay defaultDetector 0 "tsA" (.frame (.ok blankFrame))).2)
            1 "tsB" (.frame (.ok blankFrame))).1)
    ∧ (detect_overlay defaultDetector 0 "tsA" (.frame (.ok blankFrame))).2
        = defaultDetector) :=
  ⟨rfl, C8_idempotent_up_to_timestamp defaultDetector blankFrame 0 1 "tsA" "tsB" rfl⟩

/-- Helper: a history already no longer than L is its own last-L slice. -/
theorem lastN_of_le (L : ℕ) (l : List Bool) (h : l.length ≤ L) : lastN L l = l := by
  unfold lastN
  rw [Nat.sub_eq_zero_of_le h, List.drop_zero]

/-- Helper: length of the last-L slice. -/
theorem lastN_length (L : ℕ) (l : List Bool) :
    (lastN L l).length = l.length - (l.length - L) := by
  unfold lastN
  rw [List.length_drop]

/-- Helper: pushing one outcome onto a truncated window truncates the
extended history. -/
theorem pushWindow_lastN (L : ℕ) (p : List Bool) (b : Bool) :
    pushWindow L (lastN L p) b = lastN L (p ++ [b]) := by
  unfold pushWindow lastN
  by_cases hL : L ≤ p.length
  · rw [show p.drop (p.length - L) ++ [b] = (p ++ [b]).drop (p.length - L) from
        (List.drop_append_of_le_length (by omega)).symm]
    have hlen2 : ((p ++ [b]).drop (p.length - L)).length = L + 1 := by
      rw [List.length_drop, List.length_append]
      simp
      omega
    rw [if_pos (by rw [hlen2]; omega)]
    rw [hlen2, show L + 1 - L = 1 from by omega, List.drop_drop]
    rw [List.length_append]
    congr 1
    simp
    omega
  · rw [show p.length - L = 0 from by omega, List.drop_zero]
    rw [if_neg (by rw [List.length_append]; simp; omega)]
    rw [show (p ++ [b]).length - L = 0 from by rw [List.length_append]; simp; omega,
      List.drop_zero]

/-- Helper: the persistence test only looks at the last L entries, so it
gives the same answer on the truncated window as on the full history. -/
theorem condActive_lastN (L : ℕ) (q : List Bool) :
    condActive L (lastN L q) = condActive L q := by
  unfold condActive
  rw [lastN_of_le L (lastN L q) (by rw [lastN_length]; omega)]
  have hd : decide (L ≤ (lastN L q).length) = decide (L ≤ q.length) := by
    rw [decide_eq_decide, lastN_length]
    omega
  rw [hd]

/-- Helper: one stepCond from the canonical state of history p reaches the
canonical state of p ++ [b], alerting exactly on a rising edge of
persistence. -/
theorem stepCond_canonical (L : ℕ) (p : List Bool) (b : Bool) :
    stepCond L ⟨lastN L p, condActive L p⟩ b
      = (⟨lastN L (p ++ [b]), condActive L (p ++ [b])⟩,
         condActive L (p ++ [b]) && !condActive L p) := by
  simp only [stepCond]
  rw [pushWindow_lastN, condActive_lastN]
  cases hA : condActive L (p ++ [b]) <;> cases hP : condActive L p <;>
    simp [hA, hP]

/-- Helper: along a run from the canonical state of history p, the alert of
frame i is the rising edge of persistence of the extended history. -/
theorem runCond_canonical (L : ℕ) :
    ∀ (xs p : List Bool) (i : ℕ), i < xs.length →
      (runCond L ⟨lastN L p, condActive L p⟩ xs).getD i false
        = (condActive L (p ++ xs.take (i + 1)) && !condActive L (p ++ xs.take i)) := by
  intro xs
  induction xs with
  | nil =>
      intro p i h
      simp at h
  | cons b bs ih =>
      intro p i h
      rw [runCond, stepCond_canonical]
      cases i with
      | zero =>
          simp
      | succ i =>
          rw [List.getD_cons_succ]
          rw [ih (p ++ [b]) i (by simp only [List.length_cons] at h; omega)]
          simp [List.take_succ_cons, List.append_assoc]

/-- Helper: for a never-seen room (empty window, alert flag down) the
alerts of a run are exactly the rising edges, for any window length of at
least 1. -/
theorem runCond_init (L : ℕ) (hL : 1 ≤ L) (xs : List Bool) (i : ℕ)
    (h : i < xs.length) :
    (runCond L condInit xs).getD i false = risingEdge L xs i := by
  have h0 : condActive L [] = false := by
    unfold condActive
    simp [lastN]
    omega
  have hnil : lastN L ([] : List Bool) = [] := by simp [lastN]
  have hc : condInit = (⟨lastN L [], condActive L []⟩ : CondState) := by
    rw [hnil, h0]
    rfl
  rw [hc, runCond_canonical L xs [] i h]
  unfold risingEdge
  simp

/-- Helper: the human alert stream of a run for one room is a runCond with
the human window length over the human outcomes. -/
theorem runRoom_map_fst (room : String) :
    ∀ (counts : List (ℕ × ℕ)) (st : ServiceState),
      (runRoom st room counts).map Prod.fst
        = runCond HUMAN_HISTORY_LENGTH
            ⟨(st.frame_history room).humans, (st.alert_sent room).human_alert_sent⟩
            (counts.map fun c => decide (HUMAN_MALPRACTICE_THRESHOLD ≤ c.1)) := by
  intro counts
  induction counts with
  | nil => intro st; rfl
  | cons c cs ih =>
      intro st
      simp only [runRoom, List.map_cons, runCond]
      rw [ih]
      simp [update_detection_history]

/-- Helper: the phone alert stream of a run for one room is a runCond with
the phone window length over the phone outcomes. -/
theorem runRoom_map_snd (room : String) :
    ∀ (counts : List (ℕ × ℕ)) (st : ServiceState),
      (runRoom st room counts).map Prod.snd
        = runCond PHONE_HISTORY_LENGTH
            ⟨(st.frame_history room).phones, (st.alert_sent room).phone_alert_sent⟩
            (counts.map fun c => decide (PHONE_MALPRACTICE_THRESHOLD ≤ c.2)) := by
  intro counts
  induction counts with
  | nil => intro st; rfl
  | cons c cs ih =>
      intro st
      simp only [runRoom, List.map_cons, runCond]
      rw [ih]
      simp [update_detection_history]

/-- C6: for every room and every sequence of per-frame counts, the debounce
alert of frame i for a condition is true exactly when its window (length 4
for the human condition, 2 for the phone condition) is full of all-true
outcomes after frame i and was not already persistently true one frame
earlier — so it fires exactly when the window first becomes full of
all-true values, never re-fires while the run of true outcomes continues,
and can fire again only after a false outcome breaks persistence. -/
theorem C6_debounce_rising_edge (room : String) (counts : List (ℕ × ℕ)) (i : ℕ)
    (h : i < counts.length) :
    (humanAlerts room counts).getD i false
      = risingEdge 4 (counts.map fun c => decide (1 ≤ c.1)) i
    ∧ (phoneAlerts room counts).getD i false
      = risingEdge 2 (counts.map fun c => decide (1 ≤ c.2)) i := by
  constructor
  · unfold humanAlerts
    rw [runRoom_map_fst room counts initialService]
    simp only [HUMAN_HISTORY_LENGTH, HUMAN_MALPRACTICE_THRESHOLD]
    exact runCond_init 4 (by norm_num) _ i (by simpa using h)
  · unfold phoneAlerts
    rw [runRoom_map_snd room counts initialService]
    simp only [PHONE_HISTORY_LENGTH, PHONE_MALPRACTICE_THRESHOLD]
    exact runCond_init 2 (by norm_num) _ i (by simpa using h)

/-- Witness for C6: five frames each seeing one human and no phone; the
human alert fires exactly on the 4th frame (a rising edge), and the 5th
consecutive true frame is not a rising edge, so no alert fires there. -/
theorem C6_witness :
    (3 < ([((1 : ℕ), (0 : ℕ)), (1, 0), (1, 0), (1, 0), (1, 0)] : List (ℕ × ℕ)).length)
    ∧ ((humanAlerts "room1" [(1, 0), (1, 0), (1, 0), (1, 0), (1, 0)]).getD 3 false
        = risingEdge 4 (([((1 : ℕ), (0 : ℕ)), (1, 0), (1, 0), (1, 0), (1, 0)]).map
            fun c => decide (1 ≤ c.1)) 3
      ∧ (phoneAlerts "room1" [(1, 0), (1, 0), (1, 0), (1, 0), (1, 0)]).getD 3 false
        = risingEdge 2 (([((1 : ℕ), (0 : ℕ)), (1, 0), (1, 0), (1, 0), (1, 0)]).map
            fun c => decide (1 ≤ c.2)) 3)
    ∧ risingEdge 4 [true, true, true, true, true] 3 = true
    ∧ risingEdge 4 [true, true, true, true, true] 4 = false
    ∧ risingEdge 4 [true, true, true, false, true, true, true, true] 7 = true :=
  ⟨by decide,
   C6_debounce_rising_edge "room1" [(1, 0), (1, 0), (1, 0), (1, 0), (1, 0)] 3 (by decide),
   by decide, by decide, by decide⟩

end TrueSight
